import Mathlib

/-!
Shallow embedding of the route scraper/cache engine of DelhiMetroRouteBot
(`scraper.py`), together with theorems checking the behaviour described in
the design document against this embedding.

Modelling conventions:
* Python machine state (the `StationScraper` instance attributes, plus the
  snapshot file on disk) is an explicit `ScraperState` record that every
  operation threads through.
* Python exceptions are modelled with `Except PyErr`; an uncaught exception
  propagates as `.error`, and the mutations performed before the raise are
  kept in the returned state (Python objects keep their mutations when an
  exception unwinds).
* HTML responses are modelled at the level the extractors consume them:
  a `Page` records, for each CSS query the code performs, what that query
  returns (`none` models `soup.find` returning `None`).
* `pickle.dumps`/`pickle.loads` of the plain dataclass values is modelled as
  the identity on the value (`copy.deepcopy` likewise); the snapshot file is
  the `disk` field of the state.
* The attribute `stations_fetch_count` is assigned by `save_stations` and
  read-modified by `get_route`, but `__init__` only initialises
  `station_fetch_count` (no trailing `s`).  It is therefore modelled as an
  `Option Nat`: `none` while the attribute does not exist (reading it then
  raises `AttributeError`), `some k` once `save_stations` has created it.
-/

set_option maxRecDepth 10000

deriving instance DecidableEq for Except

/-- Python exception kinds raised by the modelled code paths. -/
inductive PyErr where
  | attributeError
  | typeError
  | keyError
deriving Repr, DecidableEq

/-- Dataclass `Station` from `scraper.py` (name and dropdown value).  The
`routes` dict that Python stores inside each `Station` object is modelled
separately in `StEntry`, so that `Route` values (which embed plain stations)
stay non-recursive. -/
structure Station where
  name : String
  value : Int
deriving Repr, DecidableEq

/-- The sentinel `INTERCHANGE = Station(name='INTERCHANGE', value=-1)`. -/
def INTERCHANGE : Station := { name := "INTERCHANGE", value := -1 }

/-- The `fare` dict of a `Route`; in the source it always holds exactly the
keys `normal` and `concessional`. -/
structure Fare where
  normal : Int
  concessional : Int
deriving Repr, DecidableEq

/-- Dataclass `Route` from `scraper.py`.  The `time`, `stations` and
`interchange` fields keep their integer defaults in every execution of the
source (see `extract_route_extra`), so they are modelled as `Int`. -/
structure Route where
  frm : Station
  tos : Station
  time : Int := 0
  fare : Fare := { normal := 0, concessional := 0 }
  interchange : Int := 0
  stations : Int := 0
  route : List Station := []
deriving Repr, DecidableEq

/-- One value of the `self.stations` dict: the `Station` object together
with its `routes` dict (`to.name ↦ Route`). -/
structure StEntry where
  station : Station
  routes : List (String × Route)
deriving Repr, DecidableEq

/-- Association-list lookup, modelling Python `d[k]` /  `k in d`. -/
def alist_lookup {α β : Type} [DecidableEq α] (key : α) : List (α × β) → Option β
  | [] => none
  | kv :: rest => if kv.1 = key then some kv.2 else alist_lookup key rest

/-- Python dict assignment `d[k] = v`: replace in place when the key exists
(keeping insertion order), otherwise append. -/
def dict_set {α β : Type} [DecidableEq α] (l : List (α × β)) (key : α) (val : β) :
    List (α × β) :=
  if (alist_lookup key l).isSome then
    l.map (fun kv => if kv.1 = key then (key, val) else kv)
  else
    l ++ [(key, val)]

/-- Python dict merge `{**a, **b}`: keys of `a` in order with values
overridden by `b`, then the keys of `b` not in `a`, in order. -/
def dict_merge (a b : List (String × String)) : List (String × String) :=
  a.map (fun kv =>
    match alist_lookup kv.1 b with
    | some v => (kv.1, v)
    | none => kv) ++
  b.filter (fun kv => (alist_lookup kv.1 a).isNone)

/-- Python whitespace, as `str.strip` removes it. -/
def is_py_space (c : Char) : Bool :=
  c = ' ' || c = '\t' || c = '\n' || c = '\r' || c = '\x0b' || c = '\x0c'

/-- Drop leading Python whitespace from a character list. -/
def drop_space : List Char → List Char
  | [] => []
  | c :: rest => if is_py_space c then drop_space rest else c :: rest

/-- Python `s.strip()`. -/
def py_strip (s : String) : String :=
  ⟨(drop_space ((drop_space s.data).reverse)).reverse⟩

/-- Python `str.upper` on the ASCII letters (all strings the scraper
handles are ASCII). -/
def py_upper_char (c : Char) : Char :=
  if 'a' ≤ c && c ≤ 'z' then Char.ofNat (c.toNat - 32) else c

/-- Python `s.upper()`. -/
def py_upper (s : String) : String := ⟨s.data.map py_upper_char⟩

/-- ASCII decimal digit test. -/
def is_digit (c : Char) : Bool := '0' ≤ c && c ≤ '9'

/-- Parse a non-empty all-digit character list as a natural number. -/
def py_digits : List Char → Option Nat
  | [] => none
  | l => go l 0
where go : List Char → Nat → Option Nat
  | [], acc => some acc
  | c :: rest, acc =>
    if is_digit c then go rest (acc * 10 + (c.toNat - 48)) else none

/-- Python `int(s)`: optional surrounding whitespace, optional sign, at
least one digit; `none` models the `ValueError`. -/
def py_int (s : String) : Option Int :=
  match (py_strip s).data with
  | [] => none
  | c :: rest =>
    if c = '-' then (py_digits rest).map (fun n => -(n : Int))
    else if c = '+' then (py_digits rest).map (fun n => (n : Int))
    else (py_digits (c :: rest)).map (fun n => (n : Int))

/-- The class attribute `STATION_NAME_EXCEPTION_TRANSFORMS`: the fixed
table of upstream spelling variants, keyed by the already-uppercased name;
`none` models the `KeyError` that the caller swallows. -/
def station_name_exception_transforms : String → Option String
  | "BARAKHAMBA" => some "BARAKHAMBA ROAD"
  | "JANAK PURI WEST" => some "JANAKPURI WEST"
  | "JANAK PURI EAST" => some "JANAKPURI EAST"
  | "DABRI MOR" => some "DABRI MOR JANAKPURI SOUTH"
  | "R.K.ASHRAM MARG" => some "RK ASHRAM MARG"
  | "ESI HOSPITAL" => some "ESI BASAIDARAPUR"
  | "SOUTH CAMPUS" => some "DURGABAI DESHMUKH SOUTH CAMPUS"
  | "DELHI CANTT." => some "DELHI CANTT"
  | "SIR VISHWESHARIAH MOTI BAGH" => some "SIR VISHWESHWARAIAH MOTI BAGH"
  | "MAUJPUR-BABARPUR" => some "MAUJPUR - BABARPUR"
  | "RAJA NAHAR SINGH BALLABHGARH" => some "RAJA NAHAR SINGH - BALLABHGARH"
  | "ROHINI SECTOR 18 19" => some "ROHINI SECTOR 18,19"
  | "SHAHEED STHAL NEW BUS ADDA" => some "SHAHEED STHAL - NEW BUS ADDA"
  | "TRILOKPURI-SANJAY LAKE" => some "TRILOKPURI - SANJAY LAKE"
  | _ => none

/-- `item.text.strip().upper()` followed by the exception-table lookup whose
`KeyError` is swallowed (`_resolve_station_list_ul`, both branches). -/
def transform_station_name (raw : String) : String :=
  let n := py_upper (py_strip raw)
  (station_name_exception_transforms n).getD n

/-- One direct child of the station-list `<ul>`, as `_resolve_station_list_ul`
observes it while iterating `station_list_soup`:
* `li has_b change_here text`: an `<li>`; `has_b` records whether
  `item.find('b')` succeeds, `change_here` whether the string
  `Change Here` occurs in `item.text`, and `text` is the item's text with
  the content of its `<b>` tag (if any) excluded — which is exactly the
  text the code reads in both branches (the marker branch reads it only
  after `item.b.decompose()`).
* `ul children`: a nested `<ul>`.
* `txt s`: any other child (e.g. a whitespace `NavigableString`), which
  matches neither `item.name == 'li'` nor `item.name == 'ul'` and is
  skipped. -/
inductive ULItem where
  | li (has_b : Bool) (change_here : Bool) (text : String)
  | ul (children : List ULItem)
  | txt (s : String)

/-- The `try: route.route.append(self.stations[station_name]) except: pass`
pattern: the looked-up station as a zero-or-one element list. -/
def station_lookup_list (lookup : String → Option Station) (text : String) :
    List Station :=
  match lookup (transform_station_name text) with
  | some st => [st]
  | none => []

mutual

/-- The loop body of `StationScraper._resolve_station_list_ul` for one child
`item`: the stations it appends to `route.route`, or the exception it
raises.  In the marker branch (`item.find('b') or 'Change Here' in
item.text`) the code first calls `item.b.decompose()` — an uncaught
`AttributeError` when there is no `<b>` tag — then appends the resolved
station (skipped on a catalog `KeyError`) and unconditionally the
`INTERCHANGE` sentinel; the plain branch appends the resolved station only;
a nested `<ul>` recurses; any other child is skipped. -/
def resolve_station_item (lookup : String → Option Station) :
    ULItem → Except PyErr (List Station)
  | .li has_b change_here text =>
    if has_b || change_here then
      if has_b then
        .ok (station_lookup_list lookup text ++ [INTERCHANGE])
      else
        .error .attributeError
    else
      .ok (station_lookup_list lookup text)
  | .ul children => resolve_station_list_ul lookup children
  | .txt _ => .ok []

/-- `StationScraper._resolve_station_list_ul`: iterate the children in
order, splicing each item's appended stations; the first exception
propagates.  `lookup` is `self.stations[·]` restricted to the `Station`
value. -/
def resolve_station_list_ul (lookup : String → Option Station) :
    List ULItem → Except PyErr (List Station)
  | [] => .ok []
  | item :: rest =>
    match resolve_station_item lookup item with
    | .error e => .error e
    | .ok head =>
      match resolve_station_list_ul lookup rest with
      | .error e => .error e
      | .ok tail => .ok (head ++ tail)

end

/-- One route-result HTML response, recorded at the level the extractors
query it:
* `normal_fare_div` / `concessional_fare_div`: the text of the two fare
  `<div>`s, `none` when `soup.find` returns `None`;
* `station_list_div`: `none` when the `fr_stations` `<div>` is absent,
  `some none` when it has no `<ul>`, `some (some items)` for the children
  of its first `<ul>`;
* `extra_data_div`: the same two-level option for the `fr_sect1` `<div>`
  and its first `<ul>`, whose children are kept as their text. -/
structure Page where
  normal_fare_div : Option String
  concessional_fare_div : Option String
  station_list_div : Option (Option (List ULItem))
  extra_data_div : Option (Option (List String))

/-- `StationScraper._extract_route_fare`: both texts are parsed with
`int(...)`; on any exception (missing div or parse failure) the handler
assigns 0 to both fares.  The two successful assignments happen only after
both parses succeed, so a failing second parse also zeroes both. -/
def extract_route_fare (page : Page) : Fare :=
  match page.normal_fare_div, page.concessional_fare_div with
  | some ntext, some ctext =>
    match py_int ntext, py_int ctext with
    | some nf, some cf => { normal := nf, concessional := cf }
    | _, _ => { normal := 0, concessional := 0 }
  | _, _ => { normal := 0, concessional := 0 }

/-- `StationScraper._extract_route_list`: `stations_div.find('ul')` on a
missing div raises `AttributeError`; iterating `None` (div present, no
`<ul>`) raises `TypeError`; otherwise the `<ul>` is resolved recursively. -/
def extract_route_list (lookup : String → Option Station) :
    Option (Option (List ULItem)) → Except PyErr (List Station)
  | none => .error .attributeError
  | some none => .error .typeError
  | some (some items) => resolve_station_list_ul lookup items

/-- `StationScraper._extract_route_extra`: `extra_data_div.ul` on a missing
div raises `AttributeError`; `enumerate(None)` raises `TypeError`; and for a
non-empty child list the first loop iteration executes
`running_tasks.push(...)` on a Python `list`, which has no `push` method, so
it raises `AttributeError` before any of the three field extractors is
awaited.  Only an empty child list completes, and it completes without
assigning any field. -/
def extract_route_extra : Option (Option (List String)) → Except PyErr Unit
  | none => .error .attributeError
  | some none => .error .typeError
  | some (some []) => .ok ()
  | some (some (_ :: _)) => .error .attributeError

/-- `StationScraper._extract_route_info`: `asyncio.gather` runs the three
extractor coroutines in list order (each is synchronous), so the fare
extractor always completes, and the first exception — station-list before
extra-data — propagates.  On success the `Route` carries the extracted fare
and leg list, and the untouched integer defaults. -/
def extract_route_info (lookup : String → Option Station) (page : Page)
    (frm tos : Station) : Except PyErr Route :=
  let fare := extract_route_fare page
  match extract_route_list lookup page.station_list_div with
  | .error e => .error e
  | .ok legs =>
    match extract_route_extra page.extra_data_div with
    | .error e => .error e
    | .ok _ =>
      .ok { frm := frm, tos := tos, time := 0, fare := fare, interchange := 0,
            stations := 0, route := legs }

/-- The instance state of `StationScraper`, together with the snapshot file.
`fetch_count` and `write_count` are observation counters: `fetch_count`
counts the route `POST`s issued by `_scrape_route`, `write_count` the disk
writes performed by `save_stations`.  There is a single configured snapshot
path (`self.stations_file`), so the file system is the one `disk` slot.
`station_fetch_count` is the attribute initialised by `__init__`;
`stations_fetch_count` (see the header comment) is `none` until
`save_stations` first assigns it. -/
structure ScraperState where
  stations : List (String × StEntry)
  stations_value_to_name : List (Int × String)
  form_vars : List (String × String)
  persist : Bool
  stations_before_save : Nat
  station_fetch_count : Nat
  stations_fetch_count : Option Nat
  disk : Option (List (String × StEntry))
  fetch_count : Nat
  write_count : Nat
deriving Repr, DecidableEq

/-- The `routes` dict of the catalog `Station` object named `name`.  All
call sites of the scraper pass `self.stations[name]` as the `frm`/`to`
arguments, so the object whose `routes` dict `get_route` reads is the very
entry of `self.stations` that `_async_get_route` writes; this accessor
captures that aliasing. -/
def routes_of (s : ScraperState) (name : String) : List (String × Route) :=
  match alist_lookup name s.stations with
  | some e => e.routes
  | none => []

/-- The station lookup `self.stations[·]` used by the leg-list resolver. -/
def catalog_lookup (s : ScraperState) : String → Option Station :=
  fun n => (alist_lookup n s.stations).map (fun e => e.station)

/-- `self.stations[frm.name].routes[to.name] = scraped_route`. -/
def store_route (s : ScraperState) (frm_name to_name : String) (r : Route) :
    ScraperState :=
  { s with stations := s.stations.map (fun kv =>
      if kv.1 = frm_name then
        (kv.1, { kv.2 with routes := dict_set kv.2.routes to_name r })
      else kv) }

/-- `StationScraper.ROUTE_FORM_VARS['from']`. -/
def ROUTE_FORM_VARS_from : String := "ctl00$MainContent$ddlFrom"

/-- `StationScraper.ROUTE_FORM_VARS['to']`. -/
def ROUTE_FORM_VARS_to : String := "ctl00$MainContent$ddlTo"

/-- `StationScraper.generate_route_vars`: the two station-identifier form
fields (the integers are form-encoded as decimal strings). -/
def generate_route_vars (frm tos : Station) : List (String × String) :=
  [(ROUTE_FORM_VARS_from, toString frm.value),
   (ROUTE_FORM_VARS_to, toString tos.value)]

/-- The POST body built in `_scrape_route`:
`{**self.form_vars, **self.generate_route_vars(frm, to)}`. -/
def route_form_data (s : ScraperState) (frm tos : Station) :
    List (String × String) :=
  dict_merge s.form_vars (generate_route_vars frm tos)

/-- `StationScraper._scrape_route`: one POST of `route_form_data` (counted
in `fetch_count`); the transport `tr` maps the posted body to the HTML
response, which is then extracted against the current catalog. -/
def scrape_route (tr : List (String × String) → Page) (s : ScraperState)
    (frm tos : Station) : ScraperState × Except PyErr Route :=
  let s1 := { s with fetch_count := s.fetch_count + 1 }
  (s1, extract_route_info (catalog_lookup s1) (tr (route_form_data s frm tos)) frm tos)

/-- `StationScraper._async_get_route`: return early when `to.name` is
already in `frm.routes`, otherwise scrape and store.  A scrape that raises
leaves the cache unwritten (`Route` objects are inserted only once fully
extracted); `keyError` covers `self.stations[frm.name]` missing. -/
def async_get_route (tr : List (String × String) → Page) (s : ScraperState)
    (frm tos : Station) : ScraperState × Except PyErr Unit :=
  if (alist_lookup tos.name (routes_of s frm.name)).isSome then (s, .ok ())
  else
    match scrape_route tr s frm tos with
    | (s1, .error e) => (s1, .error e)
    | (s1, .ok r) =>
      match alist_lookup frm.name s1.stations with
      | none => (s1, .error .keyError)
      | some _ => (store_route s1 frm.name tos.name r, .ok ())

/-- `StationScraper._serialize_stations` (and the `pickle.dump` payload of
`save_stations`): `pickle` round-trips these plain dataclass values
identically, so the serialised blob is modelled as the mapping itself. -/
def serialize_stations (s : ScraperState) : List (String × StEntry) :=
  s.stations

/-- `StationScraper.save_stations`: gated on
`self.station_fetch_count >= self.stations_before_save or kwargs.get('force')`;
on a write it assigns `self.stations_fetch_count = 0` — note the trailing
`s`: the assignment creates/resets the *other* counter attribute, not the
one the gate just read. -/
def save_stations (s : ScraperState) (force : Bool) : ScraperState :=
  if decide (s.stations_before_save ≤ s.station_fetch_count) || force then
    { s with disk := some (serialize_stations s),
             write_count := s.write_count + 1,
             stations_fetch_count := some 0 }
  else s

/-- `StationScraper.load_stations`: only `self.stations` is assigned. -/
def load_stations (s : ScraperState) (blob : List (String × StEntry)) :
    ScraperState :=
  { s with stations := blob }

/-- `StationScraper.persist_stations`: save only when `self.persist`. -/
def persist_stations (s : ScraperState) (force : Bool) : ScraperState :=
  if s.persist then save_stations s force else s

/-- The final `return frm.routes[to.name]` of `get_route`, executed on the
state left by the increment and the persist call. -/
def get_route_finish (s3 : ScraperState) (frm tos : Station) :
    ScraperState × Except PyErr Route :=
  match alist_lookup tos.name (routes_of s3 frm.name) with
  | some r => (s3, .ok r)
  | none => (s3, .error .keyError)

/-- `StationScraper.get_route`: on a cache miss, run `_async_get_route`,
then execute `self.stations_fetch_count += 1` — which raises
`AttributeError` when that attribute was never created (`__init__` only
sets `station_fetch_count`) — then `persist_stations()`, and finally return
`frm.routes[to.name]`. -/
def get_route (tr : List (String × String) → Page) (s : ScraperState)
    (frm tos : Station) : ScraperState × Except PyErr Route :=
  match alist_lookup tos.name (routes_of s frm.name) with
  | some r => (s, .ok r)
  | none =>
    match async_get_route tr s frm tos with
    | (s1, .error e) => (s1, .error e)
    | (s1, .ok _) =>
      match s1.stations_fetch_count with
      | none => (s1, .error .attributeError)
      | some k =>
        get_route_finish
          (persist_stations { s1 with stations_fetch_count := some (k + 1) }
            false)
          frm tos

/-- The landing page, at the level `_scrape_init` consumes it: the
`<option>` elements of the from-station `<select>` as already-built
stations, and the `value` of each named hidden `<input>`.  (Pages on which
either extraction raises would abort startup; the claims here concern
states that completed `__init__`.) -/
structure BootstrapPage where
  options : List Station
  input_value : String → String

/-- `StationScraper.FORM_VARS_EXTRACT`. -/
def FORM_VARS_EXTRACT : List String :=
  ["__VIEWSTATE",
   "__VIEWSTATEGENERATOR",
   "__VIEWSTATEENCRYPTED",
   "__EVENTVALIDATION",
   "ctl00$headerMenu$rptProUpdate$ctl00$hdnID",
   "ctl00$headerMenu$rptProUpdate$ctl01$hdnID",
   "ctl00$headerMenu$rptProUpdate$ctl02$hdnID",
   "ctl00$headerMenu$rptProUpdate$ctl03$hdnID",
   "ctl00$headerMenu$rptProUpdate$ctl04$hdnID",
   "ctl00$headerMenu$rptProUpdate$ctl05$hdnID",
   "ctl00$MainContent$btnShowFare"]

/-- `StationScraper._extract_stations`: each option becomes a fresh catalog
entry (empty `routes` dict) and a `value ↦ name` index entry. -/
def extract_stations (s : ScraperState) (boot : BootstrapPage) : ScraperState :=
  boot.options.foldl (fun st station =>
    { st with
        stations := dict_set st.stations station.name
          { station := station, routes := [] },
        stations_value_to_name :=
          dict_set st.stations_value_to_name station.value station.name }) s

/-- `StationScraper._extract_form_vars`: `self.form_vars[var] = value` for
each name of `FORM_VARS_EXTRACT`, in list order. -/
def extract_form_vars (s : ScraperState) (boot : BootstrapPage) : ScraperState :=
  { s with form_vars :=
      (FORM_VARS_EXTRACT.foldl (fun fv n => dict_set fv n (boot.input_value n))
        s.form_vars) }

/-- `StationScraper._scrape_init`: the gathered extractors run in list
order, then `persist_stations(force=True)`. -/
def scrape_init (s : ScraperState) (boot : BootstrapPage) : ScraperState :=
  persist_stations (extract_form_vars (extract_stations s boot) boot) true

/-- `StationScraper.__init__`: fresh empty dicts and counters; when a file
path is configured and the snapshot exists on disk, `load_stations` runs in
place of the bootstrap scrape. -/
def init_scraper (persist : Bool) (stations_before_save : Nat)
    (file : Option String) (disk : Option (List (String × StEntry)))
    (boot : BootstrapPage) : ScraperState :=
  let base : ScraperState :=
    { stations := [], stations_value_to_name := [], form_vars := [],
      persist := persist, stations_before_save := stations_before_save,
      station_fetch_count := 0, stations_fetch_count := none,
      disk := disk, fetch_count := 0, write_count := 0 }
  match file, disk with
  | some _, some blob => load_stations base blob
  | _, _ => scrape_init base boot

/-- One concurrent caller of `_async_get_route(frm, to)`, cut at its
`asyncio` suspension points.  The cache check, the (blocking) POST of
`_scrape_route` and the extraction outcome all happen before the task first
yields (the first genuine suspension is the `asyncio.gather` awaited inside
`_extract_route_info`, which is after the POST); the cache store in
`_async_get_route` runs only after that suspension.  So a task is either
`start` (not yet run), `pending r` (checked, fetched and extracted `r`, not
yet stored), or `done`. -/
inductive TaskPhase where
  | start
  | pending (r : Route)
  | done
deriving Repr, DecidableEq

/-- One scheduler step of one task (see `TaskPhase`): from `start`, return
immediately when the key is cached, otherwise issue the fetch and suspend
before the store (a fetch whose extraction raises ends the task
exceptionally); from `pending r`, perform the store and finish. -/
def task_step (tr : List (String × String) → Page) (frm tos : Station)
    (s : ScraperState) : TaskPhase → ScraperState × TaskPhase
  | .start =>
    if (alist_lookup tos.name (routes_of s frm.name)).isSome then (s, .done)
    else
      match scrape_route tr s frm tos with
      | (s1, .error _) => (s1, .done)
      | (s1, .ok r) => (s1, .pending r)
  | .pending r => (store_route s frm.name tos.name r, .done)
  | .done => (s, .done)

/-- Run a schedule (a list of task indices; an index names which task runs
its next step) over a pool of tasks all calling `_async_get_route(frm, to)`
on the shared scraper state. -/
def run_sched (tr : List (String × String) → Page) (frm tos : Station) :
    List Nat → ScraperState → List TaskPhase → ScraperState × List TaskPhase
  | [], s, ts => (s, ts)
  | i :: rest, s, ts =>
    match ts.get? i with
    | none => run_sched tr frm tos rest s ts
    | some t =>
      let step := task_step tr frm tos s t
      run_sched tr frm tos rest step.1 (ts.set i step.2)

/-- The `asyncio.gather` round-robin order for `n` fresh tasks: every task
runs to its first suspension (check + fetch) before any task resumes to
store, then every task resumes. -/
def round_robin (n : Nat) : List Nat := List.range n ++ List.range n

/-- A fully sequential order: each task runs to completion before the next
starts. -/
def one_by_one (n : Nat) : List Nat := (List.range n).flatMap (fun i => [i, i])

/-! Concrete fixtures shared by the claim theorems. -/

/-- A catalog station. -/
def stKG : Station := { name := "KASHMERE GATE", value := 4 }

/-- Another catalog station. -/
def stRC : Station := { name := "RAJIV CHOWK", value := 21 }

/-- A two-station catalog snapshot with empty route caches. -/
def blob0 : List (String × StEntry) :=
  [("KASHMERE GATE", { station := stKG, routes := [] }),
   ("RAJIV CHOWK", { station := stRC, routes := [] })]

/-- A landing page carrying the same two stations. -/
def boot0 : BootstrapPage :=
  { options := [stKG, stRC], input_value := fun _ => "TOKEN" }

/-- A route-result page on which extraction fully succeeds: both fare divs
parse, the station list holds the two legs, and the extra-data `<ul>` is
present but childless (the only shape `_extract_route_extra` survives). -/
def good_page : Page :=
  { normal_fare_div := some "30",
    concessional_fare_div := some "15",
    station_list_div :=
      some (some [.li false false "Kashmere Gate", .li false false "Rajiv Chowk"]),
    extra_data_div := some (some []) }

/-- A transport that answers every POST with `good_page`. -/
def tr0 : List (String × String) → Page := fun _ => good_page

/-- The `Route` that `good_page` extracts to for `stKG → stRC`. -/
def routeKGRC : Route :=
  { frm := stKG, tos := stRC, time := 0,
    fare := { normal := 30, concessional := 15 },
    interchange := 0, stations := 0, route := [stKG, stRC] }

/-- The scraper state after `__init__` found an existing snapshot: stations
loaded from `blob0`, everything else at its fresh defaults (in particular
`stations_fetch_count` does not exist). -/
def s_loaded : ScraperState :=
  init_scraper false 1 (some "stations.data") (some blob0) boot0

/-- The scraper state after a fresh bootstrap with persistence enabled and
`stations_before_save = 1` (the values `DelhiMetroWrapper` passes): the
forced save at the end of `_scrape_init` has run. -/
def s_boot : ScraperState := init_scraper true 1 (some "stations.data") none boot0

mutual

/-- Spec-side description of the leg-list resolution for one item, written
from the design document's words ("for each list item, if it carries an
interchange marker, normalize and append the station, then append the
INTERCHANGE sentinel; otherwise append the normalized station only; if an
item is itself a sub-list, recurse into it and splice its resolved stations
in place").  `cat` is the catalog as a total map on the names that occur. -/
def resolve_spec_item (cat : String → Station) : ULItem → List Station
  | .li has_b change_here text =>
    if has_b || change_here then
      [cat (transform_station_name text), INTERCHANGE]
    else
      [cat (transform_station_name text)]
  | .ul children => resolve_spec_list cat children
  | .txt _ => []

/-- Spec-side description of the resolution of a whole list (see
`resolve_spec_item`). -/
def resolve_spec_list (cat : String → Station) : List ULItem → List Station
  | [] => []
  | item :: rest => resolve_spec_item cat item ++ resolve_spec_list cat rest

end

mutual

/-- The conditions under which the implementation can follow the spec-side
description for one item: every `<li>` whose `Change Here` text marks it as
an interchange also carries the `<b>` tag the code decomposes, and every
mentioned station name resolves in the catalog to the station `cat`
assigns it. -/
def item_ok (lookup : String → Option Station) (cat : String → Station) :
    ULItem → Bool
  | .li has_b change_here text =>
    (!change_here || has_b) &&
      decide (lookup (transform_station_name text)
        = some (cat (transform_station_name text)))
  | .ul children => items_ok lookup cat children
  | .txt _ => true

/-- `item_ok` over a whole list. -/
def items_ok (lookup : String → Option Station) (cat : String → Station) :
    List ULItem → Bool
  | [] => true
  | item :: rest => item_ok lookup cat item && items_ok lookup cat rest

end

/-! Further fixtures: a three-level nested station list with two marked
interchange items, a catalog containing its six stations, and a
route-result page without a fare block. -/

/-- Fixture station. -/
def stAl : Station := { name := "ALPHA", value := 101 }

/-- Fixture station. -/
def stBr : Station := { name := "BRAVO", value := 102 }

/-- Fixture station. -/
def stCh : Station := { name := "CHARLIE", value := 103 }

/-- Fixture station. -/
def stDe : Station := { name := "DELTA", value := 104 }

/-- Fixture station. -/
def stEc : Station := { name := "ECHO", value := 105 }

/-- Fixture station. -/
def stFo : Station := { name := "FOXTROT", value := 106 }

/-- The fixture catalog as an association list. -/
def fix_catalog : List (String × Station) :=
  [("ALPHA", stAl), ("BRAVO", stBr), ("CHARLIE", stCh),
   ("DELTA", stDe), ("ECHO", stEc), ("FOXTROT", stFo)]

/-- The fixture catalog as the partial lookup the implementation uses. -/
def fix_lookup : String → Option Station := fun n => alist_lookup n fix_catalog

/-- The fixture catalog as the total map the spec-side resolution uses. -/
def fix_cat : String → Station :=
  fun n => (alist_lookup n fix_catalog).getD { name := n, value := 0 }

/-- A three-level nested station list: `BRAVO` (marked by a `<b>` tag and
`Change Here` text) and `DELTA` (marked by a `<b>` tag alone, inside the
second nesting level) are the two interchange items; a whitespace text node
sits between items as in real markup. -/
def fix_items : List ULItem :=
  [.li false false "Alpha",
   .li true true "Bravo",
   .txt "NEWLINE",
   .ul [.li false false "Charlie",
        .ul [.li true false "Delta"],
        .li false false "Echo"],
   .li false false "Foxtrot"]

/-- A route-result page whose fare block is missing, with the station list
present and the usual three extra-metadata items. -/
def page_no_fare : Page :=
  { normal_fare_div := none,
    concessional_fare_div := none,
    station_list_div :=
      some (some [.li false false "Kashmere Gate", .li false false "Rajiv Chowk"]),
    extra_data_div :=
      some (some ["Timing - 53 Min", "Stations - 26", "Interchange - 3"]) }

/-- `page_no_fare` with a childless extra-metadata list: the only fare-less
shape on which route extraction can run to completion. -/
def page_no_fare_empty_extra : Page :=
  { page_no_fare with extra_data_div := some (some []) }

/-- The operations a running process performs on a constructed scraper: the
front-end calls `get_route`; persistence calls `save_stations` and
`load_stations`. -/
inductive ScraperOp where
  | get (frm tos : Station)
  | save (force : Bool)
  | load (blob : List (String × StEntry))

/-- Apply one operation to the scraper state. -/
def apply_op (tr : List (String × String) → Page) (s : ScraperState) :
    ScraperOp → ScraperState
  | .get frm tos => (get_route tr s frm tos).1
  | .save force => save_stations s force
  | .load blob => load_stations s blob

/-- Run a sequence of operations on the scraper state. -/
def run_ops (tr : List (String × String) → Page) :
    List ScraperOp → ScraperState → ScraperState
  | [], s => s
  | op :: rest, s => run_ops tr rest (apply_op tr s op)

mutual

/-- Helper for claim C4: on well-formed input the implementation's per-item
resolution agrees with the spec-side description. -/
theorem resolve_item_refines (lookup : String → Option Station)
    (cat : String → Station) :
    (item : ULItem) → item_ok lookup cat item = true →
      resolve_station_item lookup item = .ok (resolve_spec_item cat item)
  | .li has_b change_here text, h => by
    simp only [item_ok, Bool.and_eq_true, decide_eq_true_eq] at h
    obtain ⟨hmark, hname⟩ := h
    simp only [resolve_station_item, resolve_spec_item, station_lookup_list, hname]
    cases has_b with
    | true => simp
    | false =>
      cases change_here with
      | true => simp at hmark
      | false => simp
  | .ul children, h => by
    simp only [item_ok] at h
    simp only [resolve_station_item, resolve_spec_item]
    exact resolve_list_refines lookup cat children h
  | .txt s, _ => rfl

/-- Helper for claim C4: on well-formed input the implementation's list
resolution agrees with the spec-side description. -/
theorem resolve_list_refines (lookup : String → Option Station)
    (cat : String → Station) :
    (items : List ULItem) → items_ok lookup cat items = true →
      resolve_station_list_ul lookup items = .ok (resolve_spec_list cat items)
  | [], _ => rfl
  | item :: rest, h => by
    simp only [items_ok, Bool.and_eq_true] at h
    obtain ⟨h1, h2⟩ := h
    simp only [resolve_station_list_ul, resolve_spec_list]
    rw [resolve_item_refines lookup cat item h1,
        resolve_list_refines lookup cat rest h2]

end

/-- C4: for every nested station-list structure (whose marked items carry
the `<b>` tag the code decomposes and whose station names all resolve in
the catalog), the recursive resolution appends, for each list item with an
interchange marker, the normalized station followed by the `INTERCHANGE`
sentinel; for each unmarked item, the normalized station only; and for each
sub-list, the stations resolved from recursing into it, spliced in place —
i.e. the implementation returns exactly the spec-side resolution. -/
theorem c4_resolution_recursive_descent (lookup : String → Option Station)
    (cat : String → Station) (items : List ULItem)
    (h : items_ok lookup cat items = true) :
    resolve_station_list_ul lookup items = .ok (resolve_spec_list cat items) :=
  resolve_list_refines lookup cat items h

/-- Witness for C4: on the three-level nested fixture with two marked
interchange items, the resolved sequence is exactly the expected one — two
`INTERCHANGE` sentinels in the correct positions and no duplicated
stations. -/
theorem c4_witness :
    resolve_station_list_ul fix_lookup fix_items
      = .ok [stAl, stBr, INTERCHANGE, stCh, stDe, INTERCHANGE, stEc, stFo]
    ∧ (([stAl, stBr, INTERCHANGE, stCh, stDe, INTERCHANGE, stEc, stFo].filter
        (fun st => decide (st = INTERCHANGE))).length = 2)
    ∧ ([stAl, stBr, INTERCHANGE, stCh, stDe, INTERCHANGE, stEc, stFo].filter
        (fun st => decide (st ≠ INTERCHANGE))).Nodup :=
  ⟨(c4_resolution_recursive_descent fix_lookup fix_cat fix_items (by decide)).trans
      (by decide),
   by decide, by decide⟩

/-- C9: when an `<li>` carries the interchange marker but its normalized
station name is not in the catalog, the station append is skipped by the
bare `except`, yet the `INTERCHANGE` sentinel is still appended — the
resolved list gains a sentinel not preceded by its station. -/
theorem c9_interchange_appended_unconditionally
    (lookup : String → Option Station) (change_here : Bool) (text : String)
    (rest : List ULItem)
    (h : lookup (transform_station_name text) = none) :
    resolve_station_list_ul lookup (.li true change_here text :: rest)
      = (resolve_station_list_ul lookup rest).map
          (fun tail => INTERCHANGE :: tail) := by
  simp only [resolve_station_list_ul, resolve_station_item, station_lookup_list, h,
    Bool.true_or, if_true, List.nil_append]
  cases resolve_station_list_ul lookup rest <;> rfl

/-- Witness for C9: an unknown marked station resolves to a bare
`INTERCHANGE` sentinel. -/
theorem c9_witness :
    resolve_station_list_ul (fun _ => none) [.li true true "GHOST TOWN"]
      = .ok [INTERCHANGE] :=
  (c9_interchange_appended_unconditionally (fun _ => none) true "GHOST TOWN" []
      rfl).trans (by decide)

/-- C3 (divergence): for every route-result page whose extra-metadata list
is non-empty — in particular the standard three labeled items — the first
loop iteration of `_extract_route_extra` raises `AttributeError` at
`running_tasks.push(...)` (Python lists have `append`, not `push`), so none
of the three fields is extracted, instead of each field being read
independently with a per-field zero fallback. -/
theorem c3_extra_metadata_loop_raises (item : String) (rest : List String) :
    extract_route_extra (some (some (item :: rest))) = .error .attributeError :=
  rfl

/-- C5 (divergence): on a page with the fare block missing, the fare
extractor itself zeroes both fares as specified, but whole-route extraction
still raises (out of `_extract_route_extra`) instead of returning the
partial `Route`; only a page whose extra-metadata list is empty completes,
and there it does return the zero-fare `Route` with non-empty legs. -/
theorem c5_missing_fare_block_extraction_aborts :
    extract_route_fare page_no_fare = { normal := 0, concessional := 0 }
    ∧ extract_route_info (catalog_lookup s_loaded) page_no_fare stKG stRC
        = .error .attributeError
    ∧ extract_route_info (catalog_lookup s_loaded) page_no_fare_empty_extra stKG
        stRC
        = .ok { frm := stKG, tos := stRC, time := 0,
                fare := { normal := 0, concessional := 0 }, interchange := 0,
                stations := 0, route := [stKG, stRC] } := by
  refine ⟨rfl, by decide, by decide⟩

/-- C1 (divergence): from a state whose `stations_fetch_count` attribute was
never created — here, the state `__init__` produces when it loads an
existing snapshot — the first `get_route(A, B)` does invoke the fetch
pipeline exactly once and does store the extracted `Route` under `(A, B)`,
but it then raises `AttributeError` at `self.stations_fetch_count += 1`
instead of returning the `Route`; the second call returns the stored
`Route` without fetching again. -/
theorem c1_first_call_raises_after_store :
    (get_route tr0 s_loaded stKG stRC).2 = .error .attributeError
    ∧ (get_route tr0 s_loaded stKG stRC).1.fetch_count = 1
    ∧ alist_lookup "RAJIV CHOWK"
        (routes_of (get_route tr0 s_loaded stKG stRC).1 "KASHMERE GATE")
        = some routeKGRC
    ∧ get_route tr0 (get_route tr0 s_loaded stKG stRC).1 stKG stRC
        = ((get_route tr0 s_loaded stKG stRC).1, .ok routeKGRC) := by
  refine ⟨rfl, rfl, by decide, by decide⟩

/-- C2 (divergence): from a persist-enabled bootstrap state with
`stations_before_save = 1` (the wrapper's configuration), one completed
fetch through `get_route` leaves the gate counter `station_fetch_count` at
0 — `get_route` increments the separate `stations_fetch_count` attribute —
so the policy-gated `save_stations` performs no write (`write_count` stays
at the single forced bootstrap write and the on-disk snapshot remains the
pre-fetch mapping), even though the claimed fetches-since-last-write count
has reached the threshold. -/
theorem c2_save_gate_reads_wrong_counter :
    s_boot.write_count = 1
    ∧ s_boot.station_fetch_count = 0
    ∧ s_boot.stations_fetch_count = some 0
    ∧ s_boot.stations_before_save = 1
    ∧ s_boot.persist = true
    ∧ (get_route tr0 s_boot stKG stRC).2 = .ok routeKGRC
    ∧ (get_route tr0 s_boot stKG stRC).1.fetch_count = 1
    ∧ (get_route tr0 s_boot stKG stRC).1.stations_fetch_count = some 1
    ∧ (get_route tr0 s_boot stKG stRC).1.station_fetch_count = 0
    ∧ (get_route tr0 s_boot stKG stRC).1.write_count = 1
    ∧ (get_route tr0 s_boot stKG stRC).1.disk = some s_boot.stations := by
  refine ⟨rfl, rfl, rfl, rfl, rfl, by decide, rfl, rfl, rfl, rfl, by decide⟩

/-- Looking up any catalog entry other than the written one is unaffected
by `store_route`. -/
theorem routes_of_store_route_other (s : ScraperState)
    (frm_name to_name other : String) (r : Route) (h : other ≠ frm_name) :
    routes_of (store_route s frm_name to_name r) other = routes_of s other := by
  unfold routes_of store_route
  have hl : ∀ l : List (String × StEntry),
      alist_lookup other (l.map (fun kv =>
        if kv.1 = frm_name then
          (kv.1, { kv.2 with routes := dict_set kv.2.routes to_name r })
        else kv)) = alist_lookup other l := by
    intro l
    induction l with
    | nil => rfl
    | cons kv rest ih =>
      simp only [List.map_cons, alist_lookup]
      have hfst : (if kv.1 = frm_name then
          (kv.1, { kv.2 with routes := dict_set kv.2.routes to_name r })
        else kv).1 = kv.1 := by
        by_cases hk : kv.1 = frm_name <;> simp [hk]
      rw [hfst]
      by_cases hko : kv.1 = other
      · rw [if_pos hko, if_pos hko]
        have hk : ¬(kv.1 = frm_name) := fun hc => h (by rw [← hko, hc])
        rw [if_neg hk]
      · rw [if_neg hko, if_neg hko, ih]
  rw [hl]

/-- C6: the cache entries for `(A, B)` and `(B, A)` are distinct — storing
a `Route` under `(A, B)` leaves the entry for `(B, A)` unchanged — and the
reverse direction is fetched by its own round trip: after the `(A, B)`
store, an `_async_get_route(B, A)` on a state with `(B, A)` uncached still
issues one POST. -/
theorem c6_directionality (tr : List (String × String) → Page)
    (s : ScraperState) (A B : Station) (r : Route) (h : A.name ≠ B.name) :
    alist_lookup A.name (routes_of (store_route s A.name B.name r) B.name)
      = alist_lookup A.name (routes_of s B.name)
    ∧ (alist_lookup A.name (routes_of s B.name) = none →
        (async_get_route tr (store_route s A.name B.name r) B A).1.fetch_count
          = s.fetch_count + 1) := by
  have hro := routes_of_store_route_other s A.name B.name B.name r
    (fun hc => h hc.symm)
  refine ⟨by rw [hro], ?_⟩
  intro hnone
  unfold async_get_route
  rw [hro, hnone]
  simp only [Option.isSome_none, Bool.false_eq_true, if_false]
  split
  · rename_i s1 e heq
    have h1 : (scrape_route tr (store_route s A.name B.name r) B A).1 = s1 := by
      rw [heq]
    rw [← h1]
    simp [scrape_route, store_route]
  · rename_i s1 rr heq
    have h1 : (scrape_route tr (store_route s A.name B.name r) B A).1 = s1 := by
      rw [heq]
    split <;> (rw [← h1]; simp [scrape_route, store_route])

/-- Witness for C6 at the concrete two-station catalog. -/
theorem c6_witness :
    alist_lookup stKG.name
        (routes_of (store_route s_loaded stKG.name stRC.name routeKGRC)
          stRC.name)
      = alist_lookup stKG.name (routes_of s_loaded stRC.name)
    ∧ (async_get_route tr0 (store_route s_loaded stKG.name stRC.name routeKGRC)
        stRC stKG).1.fetch_count = s_loaded.fetch_count + 1 :=
  ⟨(c6_directionality tr0 s_loaded stKG stRC routeKGRC (by decide)).1,
   (c6_directionality tr0 s_loaded stKG stRC routeKGRC (by decide)).2
     (by decide)⟩

/-- C7: a forced save writes the full stations mapping, and a fresh scraper
constructed with that snapshot on disk loads a stations mapping equal —
key for key, including all cached `Route` values — to the mapping at the
time of the save. -/
theorem c7_persistence_roundtrip (s : ScraperState) (persist2 : Bool)
    (before2 : Nat) (path : String) (boot : BootstrapPage) :
    (save_stations s true).disk = some s.stations
    ∧ (init_scraper persist2 before2 (some path) (save_stations s true).disk
        boot).stations = s.stations
    ∧ ∀ name, alist_lookup name
        (init_scraper persist2 before2 (some path) (save_stations s true).disk
          boot).stations
        = alist_lookup name s.stations := by
  have hdisk : (save_stations s true).disk = some s.stations := by
    unfold save_stations serialize_stations
    simp
  refine ⟨hdisk, ?_, ?_⟩
  · rw [hdisk]
    rfl
  · intro name
    rw [hdisk]
    rfl

/-- Counterexample for C8: with 50 concurrent callers of `get(A, B)` on an
uncached key, the `asyncio` round-robin schedule — every task performs its
cache check and POST before any task resumes to store — issues 50 transport
calls, not 1. -/
theorem c8_fifty_concurrent_calls_fetch_fifty :
    (run_sched tr0 stKG stRC (round_robin 50) s_loaded
        (List.replicate 50 TaskPhase.start)).1.fetch_count = 50
    ∧ (run_sched tr0 stKG stRC (round_robin 50) s_loaded
        (List.replicate 50 TaskPhase.start)).1.fetch_count ≠ 1 := by
  refine ⟨rfl, by decide⟩

/-- C8 (amended): `_async_get_route` has no per-key in-flight marker, so
callers are coalesced only through the completed cache: the 50-task
round-robin schedule issues 50 transport calls, while the fully sequential
schedule — where every later caller checks after the first store — issues
exactly 1, leaving the route cached. -/
theorem c8_coalescing_only_through_completed_cache :
    (run_sched tr0 stKG stRC (round_robin 50) s_loaded
        (List.replicate 50 TaskPhase.start)).1.fetch_count = 50
    ∧ (run_sched tr0 stKG stRC (one_by_one 50) s_loaded
        (List.replicate 50 TaskPhase.start)).1.fetch_count = 1
    ∧ alist_lookup stRC.name
        (routes_of (run_sched tr0 stKG stRC (one_by_one 50) s_loaded
          (List.replicate 50 TaskPhase.start)).1 stKG.name)
        = some routeKGRC := by
  refine ⟨rfl, rfl, by decide⟩

/-- `save_stations` never touches `form_vars` or the value-to-name index. -/
theorem save_stations_untouched (s : ScraperState) (force : Bool) :
    (save_stations s force).form_vars = s.form_vars
    ∧ (save_stations s force).stations_value_to_name
        = s.stations_value_to_name := by
  unfold save_stations
  split <;> exact ⟨rfl, rfl⟩

/-- `persist_stations` never touches `form_vars` or the value-to-name
index. -/
theorem persist_stations_untouched (s : ScraperState) (force : Bool) :
    (persist_stations s force).form_vars = s.form_vars
    ∧ (persist_stations s force).stations_value_to_name
        = s.stations_value_to_name := by
  unfold persist_stations
  split
  · exact save_stations_untouched s force
  · exact ⟨rfl, rfl⟩

/-- `_async_get_route` never touches `form_vars` or the value-to-name
index. -/
theorem async_get_route_untouched (tr : List (String × String) → Page)
    (s : ScraperState) (frm tos : Station) :
    (async_get_route tr s frm tos).1.form_vars = s.form_vars
    ∧ (async_get_route tr s frm tos).1.stations_value_to_name
        = s.stations_value_to_name := by
  unfold async_get_route
  split
  · exact ⟨rfl, rfl⟩
  · split
    · rename_i s1 e hsc
      have h1 : s1 = (scrape_route tr s frm tos).1 := by rw [hsc]
      subst h1
      exact ⟨rfl, rfl⟩
    · rename_i s1 r hsc
      have h1 : s1 = (scrape_route tr s frm tos).1 := by rw [hsc]
      subst h1
      split <;> exact ⟨rfl, rfl⟩

/-- `get_route` never touches `form_vars` or the value-to-name index. -/
theorem get_route_untouched (tr : List (String × String) → Page)
    (s : ScraperState) (frm tos : Station) :
    (get_route tr s frm tos).1.form_vars = s.form_vars
    ∧ (get_route tr s frm tos).1.stations_value_to_name
        = s.stations_value_to_name := by
  unfold get_route get_route_finish
  split
  · exact ⟨rfl, rfl⟩
  · split
    · rename_i s1 e hsc
      have h1 : s1 = (async_get_route tr s frm tos).1 := by rw [hsc]
      subst h1
      exact async_get_route_untouched tr s frm tos
    · rename_i s1 u hsc
      have h1 : s1 = (async_get_route tr s frm tos).1 := by rw [hsc]
      subst h1
      have ha := async_get_route_untouched tr s frm tos
      split
      · exact ha
      · rename_i k hcnt
        have hp := persist_stations_untouched
          { (async_get_route tr s frm tos).1 with
              stations_fetch_count := some (k + 1) } false
        split <;> exact ⟨hp.1.trans ha.1, hp.2.trans ha.2⟩

/-- `load_stations` never touches `form_vars` or the value-to-name index. -/
theorem load_stations_untouched (s : ScraperState)
    (blob : List (String × StEntry)) :
    (load_stations s blob).form_vars = s.form_vars
    ∧ (load_stations s blob).stations_value_to_name
        = s.stations_value_to_name :=
  ⟨rfl, rfl⟩

/-- No scraper operation touches `form_vars` or the value-to-name index. -/
theorem run_ops_untouched (tr : List (String × String) → Page)
    (ops : List ScraperOp) :
    ∀ s : ScraperState,
      (run_ops tr ops s).form_vars = s.form_vars
      ∧ (run_ops tr ops s).stations_value_to_name
          = s.stations_value_to_name := by
  induction ops with
  | nil => exact fun s => ⟨rfl, rfl⟩
  | cons op rest ih =>
    intro s
    have hop : (apply_op tr s op).form_vars = s.form_vars
        ∧ (apply_op tr s op).stations_value_to_name
            = s.stations_value_to_name := by
      cases op with
      | get frm tos => exact get_route_untouched tr s frm tos
      | save force => exact save_stations_untouched s force
      | load blob => exact load_stations_untouched s blob
    have hrest := ih (apply_op tr s op)
    exact ⟨hrest.1.trans hop.1, hrest.2.trans hop.2⟩

/-- Merging an empty `form_vars` dict with the route vars gives exactly the
route vars. -/
theorem dict_merge_nil (b : List (String × String)) : dict_merge [] b = b := by
  unfold dict_merge
  simp only [List.map_nil, List.nil_append]
  exact List.filter_eq_self.mpr (fun a _ => rfl)

/-- C10: when a snapshot exists at startup, `__init__` loads only the
stations mapping and skips the bootstrap scrape, so `form_vars` and the
value-to-name index start empty and stay empty across any sequence of
scraper operations, and every route fetch posts exactly the two
station-identifier fields and nothing else. -/
theorem c10_snapshot_load_skips_bootstrap (blob : List (String × StEntry))
    (path : String) (persist2 : Bool) (before2 : Nat) (boot : BootstrapPage)
    (tr : List (String × String) → Page) (ops : List ScraperOp) :
    (init_scraper persist2 before2 (some path) (some blob) boot).form_vars = []
    ∧ (init_scraper persist2 before2 (some path) (some blob)
        boot).stations_value_to_name = []
    ∧ (init_scraper persist2 before2 (some path) (some blob) boot).stations
        = blob
    ∧ (run_ops tr ops
        (init_scraper persist2 before2 (some path) (some blob) boot)).form_vars
        = []
    ∧ (run_ops tr ops (init_scraper persist2 before2 (some path) (some blob)
        boot)).stations_value_to_name = []
    ∧ ∀ frm tos : Station,
        route_form_data
          (run_ops tr ops
            (init_scraper persist2 before2 (some path) (some blob) boot))
          frm tos
          = generate_route_vars frm tos := by
  have h := run_ops_untouched tr ops
    (init_scraper persist2 before2 (some path) (some blob) boot)
  refine ⟨rfl, rfl, rfl, h.1.trans rfl, h.2.trans rfl, ?_⟩
  intro frm tos
  unfold route_form_data
  rw [h.1.trans rfl]
  exact dict_merge_nil (generate_route_vars frm tos)

/-- Witness for C3 at the standard three extra-metadata items. -/
theorem c3_witness :
    extract_route_extra
      (some (some ["Timing - 53 Min", "Stations - 26", "Interchange - 3"]))
      = .error .attributeError :=
  c3_extra_metadata_loop_raises "Timing - 53 Min"
    ["Stations - 26", "Interchange - 3"]

/-- Witness for C7 at the bootstrap fixture state. -/
theorem c7_witness :
    (save_stations s_boot true).disk = some s_boot.stations
    ∧ (init_scraper false 1 (some "stations.data")
        (save_stations s_boot true).disk boot0).stations = s_boot.stations :=
  ⟨(c7_persistence_roundtrip s_boot false 1 "stations.data" boot0).1,
   (c7_persistence_roundtrip s_boot false 1 "stations.data" boot0).2.1⟩

/-- Witness for C10: a snapshot-loaded scraper that serves one route keeps
`form_vars` empty and posts only the two station fields. -/
theorem c10_witness :
    (run_ops tr0 [ScraperOp.get stKG stRC]
      (init_scraper false 1 (some "stations.data") (some blob0)
        boot0)).form_vars = []
    ∧ route_form_data
        (run_ops tr0 [ScraperOp.get stKG stRC]
          (init_scraper false 1 (some "stations.data") (some blob0) boot0))
        stKG stRC
        = generate_route_vars stKG stRC :=
  ⟨(c10_snapshot_load_skips_bootstrap blob0 "stations.data" false 1 boot0 tr0
      [ScraperOp.get stKG stRC]).2.2.2.1,
   (c10_snapshot_load_skips_bootstrap blob0 "stations.data" false 1 boot0 tr0
      [ScraperOp.get stKG stRC]).2.2.2.2.2 stKG stRC⟩
